import Mathlib

/-!
A verification development for the `log` package of the aah framework:
a pattern-driven logging engine with severity levels, a console receiver
and a rotating file receiver.  Go machine integers are modelled as
`Nat`/`Int`; the external configuration collaborator is modelled by the
flat key lookups the engine consumes; fallible construction returns
`Except`.  Definitions are shallow embeddings of the Go source; the few
routines whose source files are not available (the pattern compiler body,
the receiver's write/close path, the rotation routine) are modelled from
the specification and marked as such in their doc comments.
-/

namespace AahLog

/-! ## Severity levels (source: `Level` and its `iota` constants) -/

/-- `Level` is a `uint8` in the source; levels in use are small, so `Nat`. -/
abbrev Level := Nat

def LevelError : Level := 0

def LevelWarn : Level := 1

def LevelInfo : Level := 2

def LevelDebug : Level := 3

def LevelTrace : Level := 4

def LevelUnknown : Level := 5

/-- Model of Go `strings.ToUpper` restricted to ASCII, which covers every
name the level table holds. -/
def strToUpper (s : String) : String :=
  String.mk (s.data.map Char.toUpper)

/-- Model of `ess.StrIsEmpty` (`len(strings.TrimSpace(s)) == 0`): true
when the string holds nothing but whitespace. -/
def strIsEmpty (s : String) : Bool :=
  s.data.all (fun c => c.isWhitespace)

/-- Model of Go `strings.TrimSpace` on the character list. -/
def trimSpace (cs : List Char) : List Char :=
  ((cs.dropWhile Char.isWhitespace).reverse.dropWhile Char.isWhitespace).reverse

/-- Split a character list on a separator character (model of Go
`strings.Split` for a one-character separator). -/
def splitOnChar (sep : Char) : List Char → List (List Char)
  | [] => [[]]
  | c :: rest =>
    let parts := splitOnChar sep rest
    if c = sep then [] :: parts
    else
      match parts with
      | [] => [[c]]
      | p :: ps => (c :: p) :: ps

/-- Source table `levelNameToLevel`, a Go map modelled as an association
list (the map is immutable and holds exactly these five entries). -/
def levelNameToLevel : List (String × Level) :=
  [("ERROR", LevelError), ("WARN", LevelWarn), ("INFO", LevelInfo),
   ("DEBUG", LevelDebug), ("TRACE", LevelTrace)]

/-- Source table `levelToLevelName`. -/
def levelToLevelName : List (Level × String) :=
  [(LevelError, "ERROR"), (LevelWarn, "WARN"), (LevelInfo, "INFO"),
   (LevelDebug, "DEBUG"), (LevelTrace, "TRACE")]

/-- Source `func (level Level) String() string`. -/
def levelString (level : Level) : String :=
  match levelToLevelName.lookup level with
  | some name => name
  | none => "Unknown"

/-- Source `func levelByName(name string) Level`: uppercases the name and
looks it up, `LevelUnknown` when absent. -/
def levelByName (name : String) : Level :=
  match levelNameToLevel.lookup (strToUpper name) with
  | some level => level
  | none => LevelUnknown

/-! ## Format flags (source: `FmtFlag` constants and the `FmtFlags` table) -/

abbrev FmtFlag := Nat

def FmtFlagLevel : FmtFlag := 0

def FmtFlagTime : FmtFlag := 1

def FmtFlagUTCTime : FmtFlag := 2

def FmtFlagLongfile : FmtFlag := 3

def FmtFlagShortfile : FmtFlag := 4

def FmtFlagLine : FmtFlag := 5

def FmtFlagMessage : FmtFlag := 6

def FmtFlagCustom : FmtFlag := 7

def FmtFlagUnknown : FmtFlag := 8

/-- Source table `FmtFlags`, the fixed map of recognized flag names. -/
def FmtFlags : List (String × FmtFlag) :=
  [("level", FmtFlagLevel), ("time", FmtFlagTime), ("utctime", FmtFlagUTCTime),
   ("longfile", FmtFlagLongfile), ("shortfile", FmtFlagShortfile),
   ("line", FmtFlagLine), ("message", FmtFlagMessage), ("custom", FmtFlagCustom)]

/-- Source constant `DefaultPattern`. -/
def DefaultPattern : String :=
  "%time:2006-01-02 15:04:05.000 %level:-5 %custom:- %message"

/-- Source constant `BackupTimeFormat`, the Go time layout used for the
rotation timestamp. -/
def BackupTimeFormat : String :=
  "2006-01-02-15-04-05.000"

/-- Source constant `ErrFormatStringEmpty` (its message). -/
def ErrFormatStringEmpty : String := "log format string is empty"

/-- Source constant `ErrWriterIsClosed` (its message). -/
def ErrWriterIsClosed : String := "log writer is closed"

/-! ## Rendering the backup timestamp

Go's `time.Format` applied to the layout `BackupTimeFormat` zero-pads each
component to the layout token's width.  `goLayoutRun` interprets exactly
the tokens that occur in that layout (`2006` year, `01` month, `02` day,
`15` hour, `04` minute, `05` second, `000` milliseconds); any other
character is emitted literally. -/

/-- Zero-pad the decimal rendering of `n` to at least `width` digits. -/
def padZero (width : Nat) (n : Nat) : String :=
  let s := toString n
  if s.length < width then String.mk (List.replicate (width - s.length) '0') ++ s else s

/-- Interpreter for the Go time layout tokens appearing in
`BackupTimeFormat`, applied to a broken-down time. -/
def goLayoutRun (y mo d h mi s ms : Nat) : List Char → String
  | '2' :: '0' :: '0' :: '6' :: rest => padZero 4 y ++ goLayoutRun y mo d h mi s ms rest
  | '0' :: '0' :: '0' :: rest => padZero 3 ms ++ goLayoutRun y mo d h mi s ms rest
  | '0' :: '1' :: rest => padZero 2 mo ++ goLayoutRun y mo d h mi s ms rest
  | '0' :: '2' :: rest => padZero 2 d ++ goLayoutRun y mo d h mi s ms rest
  | '1' :: '5' :: rest => padZero 2 h ++ goLayoutRun y mo d h mi s ms rest
  | '0' :: '4' :: rest => padZero 2 mi ++ goLayoutRun y mo d h mi s ms rest
  | '0' :: '5' :: rest => padZero 2 s ++ goLayoutRun y mo d h mi s ms rest
  | c :: rest => String.singleton c ++ goLayoutRun y mo d h mi s ms rest
  | [] => ""

/-- The timestamp a rotation stamps onto the archived file:
`BackupTimeFormat` rendered at the rotation instant. -/
def backupTimeStamp (y mo d h mi s ms : Nat) : String :=
  goLayoutRun y mo d h mi s ms BackupTimeFormat.data

/-! ## Pattern compilation -/

/-- Source type `FlagPart`: one compiled directive of the pattern. -/
structure FlagPart where
  flag : FmtFlag
  name : String
  format : String
  deriving Repr, DecidableEq

/-- The marker-delimited pieces of a pattern: the text split on the flag
marker `%`, whitespace-only pieces dropped. -/
def markerParts (pattern : String) : List String :=
  ((splitOnChar '%' pattern.data).map String.mk).filter (fun p => ¬ strIsEmpty p)

/-- The flag name a marker piece introduces: the text before the value
separator `:` (or the whole piece), trimmed. -/
def flagNameOf (part : String) : String :=
  String.mk (trimSpace (((splitOnChar ':' part.data).headD part.data)))

/-- The auxiliary format of a marker piece: the text after the first `:`,
empty when there is none. -/
def flagFormatOf (part : String) : String :=
  match splitOnChar ':' part.data with
  | [] => ""
  | [_] => ""
  | _ :: rest => String.intercalate ":" (rest.map String.mk)

/-- Modelled from the spec: the body of the pattern compiler (`parseFlag`'s
per-marker resolution) is not among the source files.  Per the spec, each
marker introduces `name` or `name:auxiliary`, resolved against the fixed
`FmtFlags` table; an unknown name fails compilation with an
"unrecognized format flag" error. -/
def parseFlagPart (part : String) : Except String FlagPart :=
  match FmtFlags.lookup (flagNameOf part) with
  | some flag => .ok { flag := flag, name := flagNameOf part, format := flagFormatOf part }
  | none => .error ("unrecognized log format flag: " ++ flagNameOf part)

/-- Resolve the marker pieces left to right, stopping at the first
unrecognized name. -/
def parseParts : List String → Except String (List FlagPart)
  | [] => .ok []
  | p :: rest =>
    match parseFlagPart p with
    | .error e => .error e
    | .ok f =>
      match parseParts rest with
      | .error e => .error e
      | .ok fs => .ok (f :: fs)

/-- Modelled from the spec: `parseFlag`, the pattern compiler, is not among
the source files.  Per the spec it fails on an empty pattern with the
empty-format error and otherwise resolves each marker-introduced name
against the fixed `FmtFlags` table, failing on any unrecognized name. -/
def parseFlag (pattern : String) : Except String (List FlagPart) :=
  if strIsEmpty pattern then .error ErrFormatStringEmpty
  else parseParts (markerParts pattern)

/-- Source helper `isFmtFlagExists` (declared with the receiver code; its
body is the evident membership test on the compiled directives). -/
def isFmtFlagExists (flags : List FlagPart) (flag : FmtFlag) : Bool :=
  flags.any (fun p => p.flag = flag)

/-- Source helper `isFileFlagExists`: whether the pattern asks for caller
file information (long or short form). -/
def isFileFlagExists (flags : List FlagPart) : Bool :=
  isFmtFlagExists flags FmtFlagLongfile || isFmtFlagExists flags FmtFlagShortfile

/-! ## Configuration and the receiver state -/

/-- The flat key lookups the engine consumes from the external
configuration collaborator (`cfg.String`, `cfg.StringDefault`,
`cfg.IntDefault`), modelled as optional values: `none` means the key is
absent and the documented default applies. -/
structure Config where
  receiver : Option String
  level : Option String
  pattern : Option String
  rotateMode : Option String
  rotateSize : Option Int
  rotateLines : Option Int
  deriving Repr, DecidableEq

/-- Where a receiver writes: the standard error stream or a file path. -/
inductive Sink where
  | stderrSink
  | fileSink (path : String)
  deriving Repr, DecidableEq

/-- Source type `ReceiverStats`: cumulative lines/bytes counters. -/
structure ReceiverStats where
  lineCount : Int
  byteCount : Int
  deriving Repr, DecidableEq

/-- Source type `Receiver`.  Fields set by the two constructors in the
source keep their names (`Type` becomes `typ`); the write-path fields the
spec describes (`closed`, per-generation `lines`/`size` counters,
`openDay`) are Go zero values at construction. -/
structure Receiver where
  typ : String
  flags : List FlagPart
  level : Level
  out : Sink
  stats : ReceiverStats
  isFileInfo : Bool
  isLineInfo : Bool
  isUTC : Bool
  isColor : Bool
  rotate : String
  maxLines : Int
  maxSize : Int
  openDay : Nat
  closed : Bool
  lines : Int
  size : Int
  deriving Repr, DecidableEq

/-- Source `newConsoleReceiver`: sink is the standard error stream and the
color capability is the construction-time test `runtime.GOOS != "windows"`,
stored in the receiver.  `goos` is the host platform name. -/
def newConsoleReceiver (goos : String) (receiverType : String) (level : Level)
    (flags : List FlagPart) : Except String Receiver :=
  .ok
    { typ := receiverType
      flags := flags
      level := level
      out := Sink.stderrSink
      stats := { lineCount := 0, byteCount := 0 }
      isFileInfo := isFileFlagExists flags
      isLineInfo := isFmtFlagExists flags FmtFlagLine
      isUTC := false
      isColor := goos != "windows"
      rotate := ""
      maxLines := 0
      maxSize := 0
      openDay := 0
      closed := false
      lines := 0
      size := 0 }

/-- Source `newFileReceiver`.  `cfg.IntDefault("rotate.size", 100)` is
`cfg.rotateSize.getD 100`; sizes above 2048 MB are rejected before the file
is touched.  `openResult` is the outcome of `receiver.openFile()` (`some e`
when the file cannot be opened, an environment input); `today` is the
current day `setOpenDay` records; `path` is the configured file path. -/
def newFileReceiver (cfg : Config) (receiverType : String) (level : Level)
    (flags : List FlagPart) (openResult : Option String) (today : Nat)
    (path : String) : Except String Receiver :=
  let maxSize := cfg.rotateSize.getD 100
  if maxSize > 2048 then .error "maximum 2GB file size supported for rotation"
  else
    let receiver : Receiver :=
      { typ := receiverType
        flags := flags
        level := level
        out := Sink.fileSink path
        stats := { lineCount := 0, byteCount := 0 }
        isFileInfo := isFileFlagExists flags
        isLineInfo := isFmtFlagExists flags FmtFlagLine
        isUTC := isFmtFlagExists flags FmtFlagUTCTime
        isColor := false
        rotate := ""
        maxLines := 0
        maxSize := 0
        openDay := 0
        closed := false
        lines := 0
        size := 0 }
    match openResult with
    | some e => .error e
    | none =>
      let receiver := { receiver with rotate := cfg.rotateMode.getD "daily" }
      if receiver.rotate = "daily" then .ok { receiver with openDay := today }
      else if receiver.rotate = "lines" then
        .ok { receiver with maxLines := cfg.rotateLines.getD 0 }
      else if receiver.rotate = "size" then
        .ok { receiver with maxSize := maxSize * 1024 * 1024 }
      else .ok receiver

/-- Source `New`: the factory.  `configStr` is the raw configuration
string; `parse` is the outcome of the external parser
`config.ParseString(configStr)`; `goos`, `openResult`, `today` and `path`
are the environment inputs the two receiver constructors consume. -/
def New (configStr : String) (parse : Except String Config) (goos : String)
    (openResult : Option String) (today : Nat) (path : String) :
    Except String Receiver :=
  if strIsEmpty configStr then .error "logger config is empty"
  else
    match parse with
    | .error e => .error e
    | .ok cfg =>
      match cfg.receiver with
      | none => .error "receiver configuration is required"
      | some rt =>
        let receiverType := strToUpper rt
        let levelName := cfg.level.getD "DEBUG"
        let level := levelByName levelName
        if level = LevelUnknown then .error ("unrecognized log level: " ++ levelName)
        else
          match parseFlag (cfg.pattern.getD DefaultPattern) with
          | .error e => .error e
          | .ok flags =>
            if receiverType = "CONSOLE" then
              newConsoleReceiver goos receiverType level flags
            else if receiverType = "FILE" then
              newFileReceiver cfg receiverType level flags openResult today path
            else .error "unsupported receiver"

/-! ## Entries and the write path -/

/-- Source type `Entry`.  `Values []interface{}` is modelled as the list of
already-stringified arguments; `Time` as an opaque tick count. -/
structure Entry where
  level : Level
  time : Nat
  format : String
  values : List String
  file : String
  line : Int
  deriving Repr, DecidableEq

/-- The final element of a slash-separated path (the `shortfile` form). -/
def shortFileName (file : String) : String :=
  String.mk ((splitOnChar '/' file.data).getLastD file.data)

/-- Modelled from the spec: the directive renderer (part of the missing
receiver source).  Each directive reads the entry field its kind names; a
`custom` directive emits its auxiliary text as-is; `message` stringifies
the arguments (the `%v`-equivalent default form). -/
def renderPart (e : Entry) (p : FlagPart) : String :=
  if p.flag = FmtFlagLevel then levelString e.level
  else if p.flag = FmtFlagTime then toString e.time
  else if p.flag = FmtFlagUTCTime then toString e.time
  else if p.flag = FmtFlagLongfile then e.file
  else if p.flag = FmtFlagShortfile then shortFileName e.file
  else if p.flag = FmtFlagLine then "L" ++ toString e.line
  else if p.flag = FmtFlagMessage then String.intercalate "" e.values
  else if p.flag = FmtFlagCustom then p.format
  else ""

/-- Modelled from the spec: a rendered line is the directives rendered in
pattern order, space-joined, plus the trailing line terminator. -/
def render (flags : List FlagPart) (e : Entry) : String :=
  String.intercalate " " (flags.map (renderPart e)) ++ "\n"

/-- ANSI color table from the source (`levelToColor`). -/
def levelToColor (l : Level) : String :=
  if l = LevelError then "\x1b[0;31m"
  else if l = LevelWarn then "\x1b[0;33m"
  else if l = LevelInfo then "\x1b[0;37m"
  else if l = LevelDebug then "\x1b[0;34m"
  else if l = LevelTrace then "\x1b[0;35m"
  else ""

/-- ANSI reset code from the source (`resetColor`). -/
def resetColor : String := "\x1b[0m"

/-- The outcome of one `Output` call: the receiver afterwards, the bytes
written to the sink (`none` when no write was attempted), and the returned
error (`none` on success). -/
structure OutputResult where
  rcv : Receiver
  written : Option String
  err : Option String
  deriving Repr, DecidableEq

/-- Modelled from the spec: `Receiver.Output` is not among the source
files.  Per the spec it refuses to write after `Close` with the
closed-writer sentinel (the write is never attempted and the stats do not
change); otherwise it renders the entry through the compiled directives,
wraps the line in the level's color codes exactly when the
construction-time `isColor` capability is set, writes it, and increments
`LinesWritten` by one and `BytesWritten` by the rendered length.  The file
variant's rotation bookkeeping is not modelled here. -/
def Output (r : Receiver) (e : Entry) : OutputResult :=
  if r.closed then { rcv := r, written := none, err := some ErrWriterIsClosed }
  else
    let line := render r.flags e
    let decorated :=
      (if r.isColor then levelToColor e.level else "") ++ line ++
        (if r.isColor then resetColor else "")
    { rcv :=
        { r with
          stats :=
            { lineCount := r.stats.lineCount + 1
              byteCount := r.stats.byteCount + (line.length : Int) }
          lines := r.lines + 1
          size := r.size + (line.length : Int) }
      written := some decorated
      err := none }

/-- Modelled from the spec: `Close` flags the receiver closed (a one-way
transition, idempotent). -/
def Close (r : Receiver) : Receiver :=
  { r with closed := true }

/-- Modelled from the spec: `Closed` reports the flag. -/
def Closed (r : Receiver) : Bool :=
  r.closed

/-- Modelled from the spec: `Stats` returns the counters. -/
def Stats (r : Receiver) : ReceiverStats :=
  r.stats

/-- Modelled from the spec: the Logger facade's level filter.  An entry is
dispatched to the receiver only when its level is numerically at most the
configured threshold; otherwise the call is a no-op. -/
def dispatch (r : Receiver) (e : Entry) : OutputResult :=
  if e.level ≤ r.level then Output r e
  else { rcv := r, written := none, err := none }

/-- Run `Output` over a list of entries, collecting each call's
(written, error) observation. -/
def outputAll (r : Receiver) : List Entry → Receiver × List (Option String × Option String)
  | [] => (r, [])
  | e :: es =>
    let o := Output r e
    let rest := outputAll o.rcv es
    (rest.1, (o.written, o.err) :: rest.2)

/-! ## Rotation of the file receiver -/

/-- What one rotation does to the file system. -/
structure RotateEffect where
  closedCurrent : Bool
  renamedTo : String
  reopenedAt : String
  deriving Repr, DecidableEq

/-- Modelled from the spec: the file receiver's rotation routine is not
among the source files.  Per the spec, rotation closes the current file,
renames it by appending the timestamp (the source's `BackupTimeFormat`
layout rendered at the rotation instant) to its base name, and reopens a
fresh file at the original path. -/
def rotateFile (path : String) (y mo d h mi s ms : Nat) : RotateEffect :=
  { closedCurrent := true
    renamedTo := path ++ backupTimeStamp y mo d h mi s ms
    reopenedAt := path }

/-! ## Sample values used to instantiate the theorems -/

/-- A concrete console receiver (threshold INFO, no color, open). -/
def sampleReceiver : Receiver :=
  { typ := "CONSOLE"
    flags := []
    level := LevelInfo
    out := Sink.stderrSink
    stats := { lineCount := 0, byteCount := 0 }
    isFileInfo := false
    isLineInfo := false
    isUTC := false
    isColor := false
    rotate := ""
    maxLines := 0
    maxSize := 0
    openDay := 0
    closed := false
    lines := 0
    size := 0 }

/-- A concrete entry at the given level. -/
def sampleEntry (l : Level) : Entry :=
  { level := l, time := 0, format := "", values := ["m"], file := "d.go", line := 1 }

/-! ## Theorems -/

/-- C9: for every configuration string that is empty or whitespace-only,
`New` returns the "logger config is empty" error and no logger, for every
possible parser outcome and environment — the parse is never consulted. -/
theorem c9_empty_config (configStr : String) (parse : Except String Config)
    (goos : String) (openResult : Option String) (today : Nat) (path : String)
    (h : strIsEmpty configStr = true) :
    New configStr parse goos openResult today path = .error "logger config is empty" := by
  simp [New, h]

/-- Witness for C9 at the whitespace-only string, with a parser outcome
that would be an error if it were ever consulted. -/
theorem c9_empty_config_witness :
    New "   " (.error "parse must not run") "linux" none 0 "app.log" =
      .error "logger config is empty" :=
  c9_empty_config "   " (.error "parse must not run") "linux" none 0 "app.log" (by decide)

/-- C1: a FILE-receiver configuration whose `rotate.size` exceeds 2048 MB
fails construction with the size-cap error regardless of the rotation mode
and of whether the file could be opened; 2048 itself is accepted, and when
the mode is `size` the threshold is the configured 2048 MB, not a clamped
value. -/
theorem c1_rotate_size_cap (cfg : Config) (rt : String) (lv : Level)
    (flags : List FlagPart) (openResult : Option String) (today : Nat) (path : String) :
    (∀ n : Int, cfg.rotateSize = some n → 2048 < n →
      newFileReceiver cfg rt lv flags openResult today path =
        .error "maximum 2GB file size supported for rotation") ∧
    (cfg.rotateSize = some 2048 → openResult = none →
      ∃ r, newFileReceiver cfg rt lv flags openResult today path = .ok r ∧
        (cfg.rotateMode = some "size" → r.maxSize = 2048 * 1024 * 1024)) := by
  constructor
  · intro n hn hgt
    simp only [newFileReceiver, hn, Option.getD_some]
    rw [if_pos hgt]
  · intro hn hopen
    subst hopen
    simp only [newFileReceiver, hn, Option.getD_some]
    rw [if_neg (by omega)]
    by_cases hmode : cfg.rotateMode.getD "daily" = "daily"
    · rw [if_pos hmode]
      refine ⟨_, rfl, ?_⟩
      intro hsz
      rw [hsz] at hmode
      simp at hmode
    · rw [if_neg hmode]
      by_cases hlines : cfg.rotateMode.getD "daily" = "lines"
      · rw [if_pos hlines]
        refine ⟨_, rfl, ?_⟩
        intro hsz
        rw [hsz] at hlines
        simp at hlines
      · rw [if_neg hlines]
        by_cases hsize : cfg.rotateMode.getD "daily" = "size"
        · rw [if_pos hsize]
          exact ⟨_, rfl, fun _ => rfl⟩
        · rw [if_neg hsize]
          refine ⟨_, rfl, ?_⟩
          intro hsz
          rw [hsz] at hsize
          simp at hsize

/-- Witness for C1: 4096 MB is rejected, 2048 MB is accepted and kept
un-clamped under `size` mode. -/
theorem c1_rotate_size_cap_witness :
    newFileReceiver ⟨some "FILE", none, none, some "size", some 4096, none⟩
        "FILE" LevelDebug [] none 0 "app.log" =
      .error "maximum 2GB file size supported for rotation" ∧
    (∃ r, newFileReceiver ⟨some "FILE", none, none, some "size", some 2048, none⟩
        "FILE" LevelDebug [] none 0 "app.log" = .ok r ∧
      ((⟨some "FILE", none, none, some "size", some 2048, none⟩ : Config).rotateMode =
          some "size" → r.maxSize = 2048 * 1024 * 1024)) :=
  ⟨(c1_rotate_size_cap ⟨some "FILE", none, none, some "size", some 4096, none⟩
      "FILE" LevelDebug [] none 0 "app.log").1 4096 rfl (by decide),
   (c1_rotate_size_cap ⟨some "FILE", none, none, some "size", some 2048, none⟩
      "FILE" LevelDebug [] none 0 "app.log").2 rfl rfl⟩

/-- C6 counterexample: at the concrete rotation instant
2016-07-03 19:22:11.504, the suffix the source's `BackupTimeFormat` layout
produces is `2016-07-03-19-22-11.504` — the milliseconds are joined by a
dot, so the suffix is not the hyphen-joining of all seven components as
the claim states. -/
theorem c6_rotation_stamp_counterexample :
    backupTimeStamp 2016 7 3 19 22 11 504 = "2016-07-03-19-22-11.504" ∧
    backupTimeStamp 2016 7 3 19 22 11 504 ≠
      String.intercalate "-"
        [padZero 4 2016, padZero 2 7, padZero 2 3, padZero 2 19,
         padZero 2 22, padZero 2 11, padZero 3 504] := by
  constructor
  · rfl
  · decide

/-- C6 (amended): on rotation the current file is closed and renamed by
appending the timestamp to its base name, and the timestamp consists of
4-digit year, 2-digit month, day, hour, minute and second, hyphen-joined,
followed by the 3-digit milliseconds appended after a dot. -/
theorem c6_rotation_stamp (path : String) (y mo d h mi s ms : Nat) :
    rotateFile path y mo d h mi s ms =
      { closedCurrent := true
        renamedTo := path ++ backupTimeStamp y mo d h mi s ms
        reopenedAt := path } ∧
    backupTimeStamp y mo d h mi s ms =
      padZero 4 y ++ "-" ++ padZero 2 mo ++ "-" ++ padZero 2 d ++ "-" ++
        padZero 2 h ++ "-" ++ padZero 2 mi ++ "-" ++ padZero 2 s ++ "." ++ padZero 3 ms := by
  refine ⟨rfl, ?_⟩
  show goLayoutRun y mo d h mi s ms BackupTimeFormat.data = _
  apply String.ext
  simp [BackupTimeFormat, goLayoutRun, String.data_append, String.singleton]

/-- C8: the console receiver's sink is the standard error stream; the
ANSI-color capability is the construction-time test `GOOS != "windows"`
stored in the receiver, and every rendered line is wrapped in the level's
color codes exactly when that stored capability is set. -/
theorem c8_console_receiver (goos rt : String) (lv : Level) (flags : List FlagPart) :
    ∃ r, newConsoleReceiver goos rt lv flags = .ok r ∧
      r.out = Sink.stderrSink ∧
      r.isColor = (goos != "windows") ∧
      ∀ e : Entry, (Output r e).written =
        some ((if r.isColor then levelToColor e.level else "") ++ render r.flags e ++
          (if r.isColor then resetColor else "")) := by
  refine ⟨_, rfl, rfl, rfl, ?_⟩
  intro e
  rfl

/-- Helper: a closed receiver is a fixed point of the write path — every
`Output` leaves it untouched and observably refuses the write. -/
theorem outputAll_closed (r : Receiver) (hr : r.closed = true) (es : List Entry) :
    (outputAll r es).1 = r ∧
    ((outputAll r es).2.all fun p => p == (none, some ErrWriterIsClosed)) = true := by
  induction es with
  | nil => exact ⟨rfl, rfl⟩
  | cons e rest ih =>
    have ho : Output r e = { rcv := r, written := none, err := some ErrWriterIsClosed } := by
      simp [Output, hr]
    simp [outputAll, ho, ih.1, ih.2]

/-- C2: once `Close` has been called, every subsequent `Output` call
returns the closed-writer sentinel, never attempts a write (nothing is
handed to the sink), and leaves the receiver — its `Stats` counters
included — unchanged, over any sequence of calls. -/
theorem c2_output_after_close (r : Receiver) (es : List Entry) :
    (outputAll (Close r) es).1 = Close r ∧
    Stats (outputAll (Close r) es).1 = Stats r ∧
    ((outputAll (Close r) es).2.all fun p => p == (none, some ErrWriterIsClosed)) = true := by
  have h := outputAll_closed (Close r) rfl es
  exact ⟨h.1, by rw [h.1]; rfl, h.2⟩

/-- C3: the severity levels order Error < Warn < Info < Debug < Trace
numerically, and the facade dispatches an entry to the receiver exactly
when the entry's level is numerically at most the configured threshold:
above the threshold nothing is written and the receiver is untouched; at
or below it (on an open receiver) a write happens and `LinesWritten`
grows by one. -/
theorem c3_level_filtering :
    (LevelError < LevelWarn ∧ LevelWarn < LevelInfo ∧ LevelInfo < LevelDebug ∧
      LevelDebug < LevelTrace) ∧
    (∀ (r : Receiver) (e : Entry), r.closed = false →
      (((dispatch r e).written.isSome = true) ↔ e.level ≤ r.level) ∧
      (¬ e.level ≤ r.level → dispatch r e = { rcv := r, written := none, err := none }) ∧
      (e.level ≤ r.level → dispatch r e = Output r e ∧
        (dispatch r e).rcv.stats.lineCount = r.stats.lineCount + 1)) := by
  refine ⟨by decide, ?_⟩
  intro r e hc
  by_cases h : e.level ≤ r.level
  · refine ⟨?_, fun hn => absurd h hn, fun _ => ⟨by simp [dispatch, h], ?_⟩⟩
    · simp [dispatch, h, Output, hc]
    · simp [dispatch, h, Output, hc]
  · refine ⟨?_, fun _ => by simp [dispatch, h], fun hy => absurd hy h⟩
    simp [dispatch, h]

/-- Witness for C3: on an open INFO-threshold receiver, a TRACE entry is
dropped without touching the receiver and an ERROR entry is written,
growing `LinesWritten`. -/
theorem c3_level_filtering_witness :
    dispatch sampleReceiver (sampleEntry LevelTrace) =
      { rcv := sampleReceiver, written := none, err := none } ∧
    (dispatch sampleReceiver (sampleEntry LevelError)).rcv.stats.lineCount =
      sampleReceiver.stats.lineCount + 1 :=
  ⟨(c3_level_filtering.2 sampleReceiver (sampleEntry LevelTrace) rfl).2.1 (by decide),
   ((c3_level_filtering.2 sampleReceiver (sampleEntry LevelError) rfl).2.2 (by decide)).2⟩

/-- C10: level-name lookup is case-insensitive (it depends only on the
upper-cased name), `String()` and `levelByName` round-trip on the five
named levels, names outside the table map to `LevelUnknown`, and
`String()` of a level outside the table is `"Unknown"`. -/
theorem c10_level_name_roundtrip :
    (∀ s t : String, strToUpper s = strToUpper t → levelByName s = levelByName t) ∧
    (levelByName (levelString LevelError) = LevelError ∧
      levelByName (levelString LevelWarn) = LevelWarn ∧
      levelByName (levelString LevelInfo) = LevelInfo ∧
      levelByName (levelString LevelDebug) = LevelDebug ∧
      levelByName (levelString LevelTrace) = LevelTrace) ∧
    (∀ s : String, strToUpper s ∉ levelNameToLevel.map Prod.fst →
      levelByName s = LevelUnknown) ∧
    (∀ l : Level, l ∉ levelToLevelName.map Prod.fst →
      levelString l = "Unknown") := by
  refine ⟨?_, by decide, ?_, ?_⟩
  · intro s t h
    unfold levelByName
    rw [h]
  · intro s h
    simp only [levelNameToLevel, List.map, List.mem_cons, List.not_mem_nil, or_false,
      not_or] at h
    obtain ⟨h1, h2, h3, h4, h5⟩ := h
    unfold levelByName
    simp only [levelNameToLevel, List.lookup]
    rw [beq_false_of_ne h1, beq_false_of_ne h2, beq_false_of_ne h3,
      beq_false_of_ne h4, beq_false_of_ne h5]
  · intro l h
    simp only [levelToLevelName, List.map, List.mem_cons, List.not_mem_nil, or_false,
      not_or] at h
    obtain ⟨h1, h2, h3, h4, h5⟩ := h
    unfold levelString
    simp only [levelToLevelName, List.lookup]
    rw [beq_false_of_ne h1, beq_false_of_ne h2, beq_false_of_ne h3,
      beq_false_of_ne h4, beq_false_of_ne h5]

/-- Witness for C10: mixed-case lookup agrees with the upper-case one, an
out-of-table name yields `LevelUnknown`, and an out-of-table level prints
`"Unknown"`. -/
theorem c10_level_name_roundtrip_witness :
    levelByName "Error" = levelByName "ERROR" ∧
    levelByName "VERBOSE" = LevelUnknown ∧
    levelString 9 = "Unknown" :=
  ⟨c10_level_name_roundtrip.1 "Error" "ERROR" (by decide),
   c10_level_name_roundtrip.2.2.1 "VERBOSE" (by decide),
   c10_level_name_roundtrip.2.2.2 9 (by decide)⟩

/-- Helper: resolving a list of marker pieces one of which carries a name
outside the `FmtFlags` table yields an unrecognized-flag error naming some
out-of-table flag. -/
theorem parseParts_unknown_name (parts : List String) (part : String)
    (hmem : part ∈ parts) (hnone : FmtFlags.lookup (flagNameOf part) = none) :
    ∃ name, parseParts parts = .error ("unrecognized log format flag: " ++ name) ∧
      FmtFlags.lookup name = none := by
  induction parts with
  | nil => cases hmem
  | cons p rest ih =>
    rcases List.mem_cons.mp hmem with hp | hp
    · subst hp
      refine ⟨flagNameOf part, ?_, hnone⟩
      simp [parseParts, parseFlagPart, hnone]
    · cases hlook : FmtFlags.lookup (flagNameOf p) with
      | none =>
        refine ⟨flagNameOf p, ?_, hlook⟩
        simp [parseParts, parseFlagPart, hlook]
      | some flag =>
        obtain ⟨name, hname, hnone2⟩ := ih hp
        refine ⟨name, ?_, hnone2⟩
        simp [parseParts, parseFlagPart, hlook, hname]

/-- C5: the fixed flag table holds exactly the names level, time, utctime,
longfile, shortfile, line, message and custom; compiling the empty pattern
fails with the empty-format error; and compiling any pattern one of whose
marker pieces carries a name outside the table fails with an
"unrecognized format flag" error naming an out-of-table flag. -/
theorem c5_pattern_compilation :
    (FmtFlags.map Prod.fst =
      ["level", "time", "utctime", "longfile", "shortfile", "line", "message", "custom"]) ∧
    parseFlag "" = .error ErrFormatStringEmpty ∧
    (∀ pattern : String, strIsEmpty pattern = false →
      ∀ part ∈ markerParts pattern, FmtFlags.lookup (flagNameOf part) = none →
        ∃ name, parseFlag pattern = .error ("unrecognized log format flag: " ++ name) ∧
          FmtFlags.lookup name = none) := by
  refine ⟨by decide, by rfl, ?_⟩
  intro pattern hne part hmem hnone
  unfold parseFlag
  simp only [hne, Bool.false_eq_true, if_false]
  exact parseParts_unknown_name (markerParts pattern) part hmem hnone

/-- Witness for C5: `%level %bogus` contains the out-of-table name
`bogus`, and its compilation fails with the unrecognized-flag error. -/
theorem c5_pattern_compilation_witness :
    ∃ name, parseFlag "%level %bogus" =
        .error ("unrecognized log format flag: " ++ name) ∧
      FmtFlags.lookup name = none :=
  c5_pattern_compilation.2.2 "%level %bogus" (by decide) "bogus" (by decide) (by decide)

/-- C4: the factory `New` fails with an error and no logger when the
`receiver` key is missing, when the configured level name is
unrecognized, when the pattern does not compile, or when the receiver
type upper-cases to neither CONSOLE nor FILE — in each case the `Except`
result is an `error`, never a partially-constructed receiver. -/
theorem c4_factory_errors (configStr goos : String) (openResult : Option String)
    (today : Nat) (path : String) (cfg : Config)
    (hcs : strIsEmpty configStr = false) :
    (cfg.receiver = none →
      New configStr (.ok cfg) goos openResult today path =
        .error "receiver configuration is required") ∧
    (∀ rt lvName, cfg.receiver = some rt → cfg.level = some lvName →
      levelByName lvName = LevelUnknown →
      New configStr (.ok cfg) goos openResult today path =
        .error ("unrecognized log level: " ++ lvName)) ∧
    (∀ rt msg, cfg.receiver = some rt →
      levelByName (cfg.level.getD "DEBUG") ≠ LevelUnknown →
      parseFlag (cfg.pattern.getD DefaultPattern) = .error msg →
      New configStr (.ok cfg) goos openResult today path = .error msg) ∧
    (∀ rt, cfg.receiver = some rt →
      strToUpper rt ≠ "CONSOLE" → strToUpper rt ≠ "FILE" →
      levelByName (cfg.level.getD "DEBUG") ≠ LevelUnknown →
      (∃ flags, parseFlag (cfg.pattern.getD DefaultPattern) = .ok flags) →
      New configStr (.ok cfg) goos openResult today path = .error "unsupported receiver") := by
  refine ⟨?_, ?_, ?_, ?_⟩
  · intro hrecv
    simp [New, hcs, hrecv]
  · intro rt lvName hrecv hlv hunk
    simp [New, hcs, hrecv, hlv, hunk]
  · intro rt msg hrecv hlv hpf
    simp [New, hcs, hrecv, hpf, if_neg hlv]
  · intro rt hrecv hcon hfile hlv hpf
    obtain ⟨flags, hpf⟩ := hpf
    simp [New, hcs, hrecv, hpf, if_neg hlv, if_neg hcon, if_neg hfile]

/-- Witness for C4: a missing receiver key, an unrecognized level name, a
bad pattern and an unsupported receiver type each fail construction with
the corresponding error. -/
theorem c4_factory_errors_witness :
    New "a" (.ok ⟨none, none, none, none, none, none⟩) "linux" none 0 "a.log" =
      .error "receiver configuration is required" ∧
    New "a" (.ok ⟨some "CONSOLE", some "LOUD", none, none, none, none⟩) "linux" none 0 "a.log" =
      .error "unrecognized log level: LOUD" ∧
    New "a" (.ok ⟨some "CONSOLE", none, some "%bogus", none, none, none⟩) "linux" none 0 "a.log" =
      .error "unrecognized log format flag: bogus" ∧
    New "a" (.ok ⟨some "syslog", none, none, none, none, none⟩) "linux" none 0 "a.log" =
      .error "unsupported receiver" :=
  ⟨(c4_factory_errors "a" "linux" none 0 "a.log" ⟨none, none, none, none, none, none⟩
      (by decide)).1 rfl,
   (c4_factory_errors "a" "linux" none 0 "a.log" ⟨some "CONSOLE", some "LOUD", none, none, none, none⟩
      (by decide)).2.1 "CONSOLE" "LOUD" rfl rfl (by decide),
   (c4_factory_errors "a" "linux" none 0 "a.log" ⟨some "CONSOLE", none, some "%bogus", none, none, none⟩
      (by decide)).2.2.1 "CONSOLE" "unrecognized log format flag: bogus" rfl (by decide) (by rfl),
   (c4_factory_errors "a" "linux" none 0 "a.log" ⟨some "syslog", none, none, none, none, none⟩
      (by decide)).2.2.2 "syslog" rfl (by decide) (by decide) (by decide) ⟨_, rfl⟩⟩

/-- C7: with the corresponding keys absent, construction uses level DEBUG,
the default pattern, rotation mode `daily`, and — when the mode is `size`
and `rotate.size` is absent — a 100 MB threshold. -/
theorem c7_defaults (configStr goos : String) (today : Nat) (path : String) (cfg : Config)
    (hcs : strIsEmpty configStr = false)
    (hrecv : cfg.receiver = some "FILE") (hlv : cfg.level = none)
    (hpat : cfg.pattern = none) (hsz : cfg.rotateSize = none) :
    (cfg.rotateMode = none →
      (New configStr (.ok cfg) goos none today path).map Receiver.level = .ok LevelDebug ∧
      (New configStr (.ok cfg) goos none today path).map Receiver.rotate = .ok "daily" ∧
      (New configStr (.ok cfg) goos none today path).map Receiver.flags =
        parseFlag DefaultPattern) ∧
    (cfg.rotateMode = some "size" →
      (New configStr (.ok cfg) goos none today path).map Receiver.level = .ok LevelDebug ∧
      (New configStr (.ok cfg) goos none today path).map Receiver.maxSize =
        .ok (100 * 1024 * 1024)) := by
  have hok : ∃ fs, parseFlag DefaultPattern = .ok fs := ⟨_, rfl⟩
  obtain ⟨fs, hpf⟩ := hok
  have h1 : strToUpper "FILE" = "FILE" := rfl
  have h2 : levelByName "DEBUG" = LevelDebug := rfl
  have h3 : ¬ (LevelDebug = LevelUnknown) := by decide
  constructor
  · intro hmode
    refine ⟨?_, ?_, ?_⟩ <;>
      simp [New, hcs, hrecv, hlv, hpat, hpf, newFileReceiver, hsz, hmode,
        h1, h2, h3, Except.map]
  · intro hmode
    constructor <;>
      simp [New, hcs, hrecv, hlv, hpat, hpf, newFileReceiver, hsz, hmode,
        h1, h2, h3, Except.map]

/-- Witness for C7: a FILE configuration with no level, pattern, mode or
size keys gets the documented defaults. -/
theorem c7_defaults_witness :
    ((New "a" (.ok ⟨some "FILE", none, none, none, none, none⟩) "linux" none 0 "a.log").map
        Receiver.level = .ok LevelDebug ∧
      (New "a" (.ok ⟨some "FILE", none, none, none, none, none⟩) "linux" none 0 "a.log").map
        Receiver.rotate = .ok "daily" ∧
      (New "a" (.ok ⟨some "FILE", none, none, none, none, none⟩) "linux" none 0 "a.log").map
        Receiver.flags = parseFlag DefaultPattern) ∧
    ((New "a" (.ok ⟨some "FILE", none, none, some "size", none, none⟩) "linux" none 0 "a.log").map
        Receiver.level = .ok LevelDebug ∧
      (New "a" (.ok ⟨some "FILE", none, none, some "size", none, none⟩) "linux" none 0 "a.log").map
        Receiver.maxSize = .ok (100 * 1024 * 1024)) :=
  ⟨(c7_defaults "a" "linux" 0 "a.log" ⟨some "FILE", none, none, none, none, none⟩
      (by decide) rfl rfl rfl rfl).1 rfl,
   (c7_defaults "a" "linux" 0 "a.log" ⟨some "FILE", none, none, some "size", none, none⟩
      (by decide) rfl rfl rfl rfl).2 rfl⟩

end AahLog
